import Mathlib

/-!
Shallow embedding of the two notebooks of the repository
(`01_machineLearning/00_make_slimmed_dataset_Hai_modified.ipynb` and the
MNIST "MLPs by hand" notebook), together with theorems settling the frozen
claims about them.

NumPy float arrays are modelled as Mathlib matrices over `ℝ`; `numpy.dot`
is matrix multiplication, `.transpose()` is `Matrix.transpose`, elementwise
arithmetic is pointwise.
-/

open Matrix

namespace MnistNotebook

/-- The NumPy mean of an `m × k` array: the sum of all entries divided by
the total entry count `m * k` (`numpy.mean` flattens before averaging). -/
noncomputable def npMean {m k : ℕ} (A : Matrix (Fin m) (Fin k) ℝ) : ℝ :=
  (∑ i, ∑ j, A i j) / ((m * k : ℕ) : ℝ)

/-- `linear_model(W, input_images)` from the MNIST notebook:
`numpy.dot(input_images, W)`. -/
noncomputable def linear_model {m d k : ℕ} (W : Matrix (Fin d) (Fin k) ℝ)
    (input_images : Matrix (Fin m) (Fin d) ℝ) : Matrix (Fin m) (Fin k) ℝ :=
  input_images * W

/-- `evaluate(W, input_images, true_labels)` from the MNIST notebook:
`numpy.mean((true_labels - predicted_label)**2)`. -/
noncomputable def evaluate {m d k : ℕ} (W : Matrix (Fin d) (Fin k) ℝ)
    (input_images : Matrix (Fin m) (Fin d) ℝ)
    (true_labels : Matrix (Fin m) (Fin k) ℝ) : ℝ :=
  npMean ((true_labels - linear_model W input_images).map (fun t => t ^ 2))

/-- `learn(input_images, true_labels, current_W, learning_rate)` from the
MNIST notebook: `n` is the number of rows of `input_images`, the gradient is
`(2./n) * numpy.dot(input_images.transpose(), label_predictions - true_labels)`
and the result is `current_W - learning_rate * dJW_dW`. -/
noncomputable def learn {m d k : ℕ} (input_images : Matrix (Fin m) (Fin d) ℝ)
    (true_labels : Matrix (Fin m) (Fin k) ℝ)
    (current_W : Matrix (Fin d) (Fin k) ℝ)
    (learning_rate : ℝ) : Matrix (Fin d) (Fin k) ℝ :=
  let n : ℝ := (m : ℕ)
  let label_predictions := linear_model current_W input_images
  let dJW_dW := (2 / n) • (input_imagesᵀ * (label_predictions - true_labels))
  current_W - learning_rate • dJW_dW

end MnistNotebook

namespace MnistNotebook

/-- Claim C2: `learn(X, y, W, eta)` returns exactly
`W - eta * (2/n) * Xᵀ (X W - y)` where `n` is the number of rows of the
batch `X`: one constant-step update with the analytic gradient of the
batch-averaged mean-squared-error loss. -/
theorem learn_is_analytic_gradient_step {m d k : ℕ}
    (X : Matrix (Fin m) (Fin d) ℝ) (y : Matrix (Fin m) (Fin k) ℝ)
    (W : Matrix (Fin d) (Fin k) ℝ) (eta : ℝ) :
    learn X y W eta = W - (eta * (2 / (m : ℝ))) • (Xᵀ * (X * W - y)) := by
  simp only [learn, linear_model, smul_smul]

/-- Claim C5: `evaluate(W, X, y)` equals the reference mean-squared-error
`(1/n) * ∑ i, (y i - (X W) i)^2` for a label column vector `y` and an
`n`-row batch `X`. -/
theorem evaluate_is_mse {m d : ℕ}
    (W : Matrix (Fin d) (Fin 1) ℝ) (X : Matrix (Fin m) (Fin d) ℝ)
    (y : Matrix (Fin m) (Fin 1) ℝ) :
    evaluate W X y = (1 / (m : ℝ)) * ∑ i, (y i 0 - (X * W) i 0) ^ 2 := by
  unfold evaluate npMean linear_model
  simp only [Matrix.map_apply, Matrix.sub_apply, Fin.sum_univ_one, Nat.mul_one]
  rw [one_div, inv_mul_eq_div]

end MnistNotebook

namespace MnistNotebook

/-- `sigmoid(x)` from the MNIST notebook: `1/(1 + numpy.exp(-x))`,
applied here to a single scalar (NumPy broadcasts it elementwise). -/
noncomputable def sigmoid (x : ℝ) : ℝ :=
  1 / (1 + Real.exp (-x))

/-- The FIRST `classification_model(A, b, input_images)` of the MNIST
notebook (the sigmoid one).  Its body is
`sigmoid(numpy.dot(input_images, W) + b)`: it reads the GLOBAL variable `W`
(modelled as the extra argument `Wglobal`) instead of its parameter `A`,
and broadcasts the bias `b` over all entries. -/
noncomputable def classification_model {m d : ℕ}
    (Wglobal : Matrix (Fin d) (Fin 1) ℝ) (A : Matrix (Fin d) (Fin 1) ℝ)
    (b : ℝ) (input_images : Matrix (Fin m) (Fin d) ℝ) :
    Matrix (Fin m) (Fin 1) ℝ :=
  fun i j => sigmoid ((input_images * Wglobal) i j + b)

/-- `softmax(x)` from the MNIST notebook: `normalization` is
`numpy.sum(numpy.exp(x), axis=1)` (one sum per row) and the result is
`numpy.exp(x) / normalization[:,None]`. -/
noncomputable def softmax {m k : ℕ} (x : Matrix (Fin m) (Fin k) ℝ) :
    Matrix (Fin m) (Fin k) ℝ :=
  fun i j => Real.exp (x i j) / ∑ l, Real.exp (x i l)

/-- The pre-processing of a pixel in the MNIST notebook:
`x_train.astype(numpy.float32)` followed by `x_train /= 255.`, i.e. the
integer pixel value divided by 255. -/
noncomputable def normalizePixel (p : ℕ) : ℝ :=
  (p : ℝ) / 255

/-- The flat index `28 * r + c` at which row `r`, column `c` of a 28×28
image lands when the image is flattened in NumPy's row-major order. -/
def flatIdx (r c : Fin 28) : Fin 784 :=
  ⟨28 * r.val + c.val, by have hr := r.isLt; have hc := c.isLt; omega⟩

/-- `x_train.reshape(x_train.shape[0], 784)` from the MNIST notebook:
each 28×28 image becomes a 784-vector in row-major order; the number of
examples `n` is unchanged. -/
def flattenImages {n : ℕ} (x : Fin n → Fin 28 → Fin 28 → ℝ) :
    Fin n → Fin 784 → ℝ :=
  fun i j =>
    x i ⟨j.val / 28, by have hj := j.isLt; omega⟩
        ⟨j.val % 28, by have hj := j.isLt; omega⟩

end MnistNotebook

namespace MnistNotebook

/-- Claim C10: the first (sigmoid) `classification_model`'s output is
independent of its weight argument: for the same global `W`, bias and
input, any two weight matrices `A`, `A'` give the same output, because the
body reads the global `W` rather than the parameter `A`. -/
theorem classification_model_ignores_weight_argument {m d : ℕ}
    (Wglobal : Matrix (Fin d) (Fin 1) ℝ) (A A' : Matrix (Fin d) (Fin 1) ℝ)
    (b : ℝ) (x : Matrix (Fin m) (Fin d) ℝ) :
    classification_model Wglobal A b x = classification_model Wglobal A' b x := rfl

/-- Claim C6: every row of `softmax(x)` is a probability distribution
(entries strictly positive, summing to 1, as long as there is at least one
column), and `sigmoid` maps every real score into the open interval (0,1). -/
theorem softmax_rows_are_distributions_and_sigmoid_in_unit_interval :
    (∀ (m k : ℕ) (x : Matrix (Fin m) (Fin k) ℝ) (i : Fin m), 0 < k →
      (∀ j, 0 < softmax x i j) ∧ (∑ j, softmax x i j) = 1) ∧
    (∀ t : ℝ, 0 < sigmoid t ∧ sigmoid t < 1) := by
  constructor
  · intro m k x i hk
    have hpos : (0 : ℝ) < ∑ l, Real.exp (x i l) := by
      have : Nonempty (Fin k) := ⟨⟨0, hk⟩⟩
      exact Finset.sum_pos (fun l _ => Real.exp_pos _) Finset.univ_nonempty
    constructor
    · intro j
      exact div_pos (Real.exp_pos _) hpos
    · unfold softmax
      rw [← Finset.sum_div]
      exact div_self (ne_of_gt hpos)
  · intro t
    have h1 : (0 : ℝ) < 1 + Real.exp (-t) := by positivity
    unfold sigmoid
    constructor
    · exact div_pos one_pos h1
    · rw [div_lt_one h1]
      have := Real.exp_pos (-t)
      linarith

/-- Claim C7: after pre-processing, every pixel (an integer 0..255 divided
by 255) lies in [0,1], and flattening a batch of 28×28 images to 784-vectors
changes no pixel value (and, by its type, keeps the number `n` of examples):
the flattened entry at index `28*r + c` is the original pixel at row `r`,
column `c`. -/
theorem preprocessing_normalizes_and_flatten_preserves_pixels :
    (∀ p : ℕ, p ≤ 255 → 0 ≤ normalizePixel p ∧ normalizePixel p ≤ 1) ∧
    (∀ (n : ℕ) (x : Fin n → Fin 28 → Fin 28 → ℝ) (i : Fin n) (r c : Fin 28),
      flattenImages x i (flatIdx r c) = x i r c) := by
  constructor
  · intro p hp
    unfold normalizePixel
    constructor
    · exact div_nonneg (Nat.cast_nonneg p) (by norm_num)
    · rw [div_le_one (by norm_num)]
      exact_mod_cast hp
  · intro n x i r c
    unfold flattenImages flatIdx
    have hc := c.isLt
    have hdiv : (28 * r.val + c.val) / 28 = r.val := by omega
    have hmod : (28 * r.val + c.val) % 28 = c.val := by omega
    congr 1 <;> [exact Fin.ext hdiv; exact Fin.ext hmod]

/-- Witness for C6 at a concrete 1×1 matrix and the score 0. -/
theorem softmax_sigmoid_witness :
    0 < 1 ∧
    ((∀ j, 0 < softmax (fun _ _ => (0 : ℝ) : Matrix (Fin 1) (Fin 1) ℝ) 0 j) ∧
      (∑ j, softmax (fun _ _ => (0 : ℝ) : Matrix (Fin 1) (Fin 1) ℝ) 0 j) = 1) ∧
    (0 < sigmoid 0 ∧ sigmoid 0 < 1) :=
  ⟨Nat.one_pos,
   softmax_rows_are_distributions_and_sigmoid_in_unit_interval.1
     1 1 (fun _ _ => (0 : ℝ)) 0 Nat.one_pos,
   softmax_rows_are_distributions_and_sigmoid_in_unit_interval.2 0⟩

/-- Witness for C7 at pixel value 128 and a concrete image batch. -/
theorem preprocessing_flatten_witness :
    (128 ≤ 255 ∧ (0 ≤ normalizePixel 128 ∧ normalizePixel 128 ≤ 1)) ∧
    flattenImages (fun _ r c => (r.val + c.val : ℝ) : Fin 1 → Fin 28 → Fin 28 → ℝ)
      0 (flatIdx 3 5) = (3 : Fin 28).val + (5 : Fin 28).val :=
  ⟨⟨by decide,
    preprocessing_normalizes_and_flatten_preserves_pixels.1 128 (by decide)⟩,
   preprocessing_normalizes_and_flatten_preserves_pixels.2
     1 (fun _ r c => (r.val + c.val : ℝ)) 0 3 5⟩

end MnistNotebook

namespace MnistNotebook

/-- The mutable global state of the MNIST notebook's training-loop cell:
the fixed mini-batch (`x_train_batch`, `y_train_batch`), the weight vector
`W` and the `losses` array. -/
structure TrainState (m d k : ℕ) where
  xBatch : Matrix (Fin m) (Fin d) ℝ
  yBatch : Matrix (Fin m) (Fin k) ℝ
  W : Matrix (Fin d) (Fin k) ℝ
  losses : List ℝ

/-- One iteration of the training loop, at loop index `i`:
`W = learn(x_train_batch, y_train_batch, W, learning_rate)` followed by
`losses[i] = evaluate(W, x_train_batch, y_train_batch)` (with the updated
`W`).  These are the only two assignments in the loop body. -/
noncomputable def loopBody {m d k : ℕ} (learning_rate : ℝ)
    (s : TrainState m d k) (i : ℕ) : TrainState m d k :=
  let W1 := learn s.xBatch s.yBatch s.W learning_rate
  { s with W := W1, losses := s.losses.set i (evaluate W1 s.xBatch s.yBatch) }

/-- `for i in range(0, num_iters): ...` — the training loop, folding the
loop body over the indices `0, 1, ..., num_iters - 1`. -/
noncomputable def trainLoop {m d k : ℕ} (learning_rate : ℝ) (num_iters : ℕ)
    (s0 : TrainState m d k) : TrainState m d k :=
  (List.range num_iters).foldl (loopBody learning_rate) s0

/-- The state just before the loop: the given batch, the initial weights
`W`, and `losses = numpy.zeros(num_iters,)`. -/
noncomputable def initState {m d k : ℕ} (xB : Matrix (Fin m) (Fin d) ℝ)
    (yB : Matrix (Fin m) (Fin k) ℝ) (W0 : Matrix (Fin d) (Fin k) ℝ)
    (num_iters : ℕ) : TrainState m d k :=
  ⟨xB, yB, W0, List.replicate num_iters 0⟩

/-- `x_train_batch = x_train[:batch_size, :]` with `batch_size = 100`:
the first 100 rows of the 60000×784 flattened training matrix. -/
def x_train_batch (x : Matrix (Fin 60000) (Fin 784) ℝ) :
    Matrix (Fin 100) (Fin 784) ℝ :=
  fun i j => x ⟨i.val, by have := i.isLt; omega⟩ j

/-- `y_train_batch = y_train[:batch_size, numpy.newaxis]`: the first 100
labels, as a 100×1 column matrix. -/
def y_train_batch (y : Fin 60000 → ℝ) : Matrix (Fin 100) (Fin 1) ℝ :=
  fun i _ => y ⟨i.val, by have := i.isLt; omega⟩

/-- The weights after `n` successive `learn` updates on the fixed batch. -/
noncomputable def iteratedLearn {m d k : ℕ} (xB : Matrix (Fin m) (Fin d) ℝ)
    (yB : Matrix (Fin m) (Fin k) ℝ) (learning_rate : ℝ) :
    ℕ → Matrix (Fin d) (Fin k) ℝ → Matrix (Fin d) (Fin k) ℝ
  | 0, W0 => W0
  | n + 1, W0 => learn xB yB (iteratedLearn xB yB learning_rate n W0) learning_rate

lemma getD_set_self (l : List ℝ) (n : ℕ) (a : ℝ) (h : n < l.length) :
    (l.set n a).getD n 0 = a := by
  simp [List.getD, List.getElem?_set_eq_of_lt a h]

lemma getD_set_ne (l : List ℝ) (n i : ℕ) (a : ℝ) (h : i ≠ n) :
    (l.set n a).getD i 0 = l.getD i 0 := by
  simp [List.getD, List.getElem?_set_ne (Ne.symm h)]

lemma getD_replicate_zero (N i : ℕ) : (List.replicate N (0 : ℝ)).getD i 0 = 0 := by
  induction N generalizing i with
  | zero => cases i <;> rfl
  | succ N ih => cases i with
    | zero => rfl
    | succ i => exact ih i

lemma foldl_loopBody_xBatch {m d k : ℕ} (lr : ℝ) (l : List ℕ) :
    ∀ s : TrainState m d k, (l.foldl (loopBody lr) s).xBatch = s.xBatch := by
  induction l with
  | nil => intro s; rfl
  | cons a l ih => intro s; rw [List.foldl_cons, ih]; rfl

lemma foldl_loopBody_yBatch {m d k : ℕ} (lr : ℝ) (l : List ℕ) :
    ∀ s : TrainState m d k, (l.foldl (loopBody lr) s).yBatch = s.yBatch := by
  induction l with
  | nil => intro s; rfl
  | cons a l ih => intro s; rw [List.foldl_cons, ih]; rfl

lemma foldl_loopBody_losses_length {m d k : ℕ} (lr : ℝ) (l : List ℕ) :
    ∀ s : TrainState m d k, (l.foldl (loopBody lr) s).losses.length = s.losses.length := by
  induction l with
  | nil => intro s; rfl
  | cons a l ih => intro s; rw [List.foldl_cons, ih]; simp [loopBody]

lemma trainLoop_W {m d k : ℕ} (lr : ℝ) (xB : Matrix (Fin m) (Fin d) ℝ)
    (yB : Matrix (Fin m) (Fin k) ℝ) (W0 : Matrix (Fin d) (Fin k) ℝ) (N : ℕ) :
    ∀ n : ℕ, (trainLoop lr n (initState xB yB W0 N)).W = iteratedLearn xB yB lr n W0 := by
  intro n
  induction n with
  | zero => rfl
  | succ n ih =>
      unfold trainLoop at ih ⊢
      rw [List.range_succ, List.foldl_append, List.foldl_cons, List.foldl_nil]
      have hx : ((List.range n).foldl (loopBody lr) (initState xB yB W0 N)).xBatch = xB := by
        rw [foldl_loopBody_xBatch]; rfl
      have hy : ((List.range n).foldl (loopBody lr) (initState xB yB W0 N)).yBatch = yB := by
        rw [foldl_loopBody_yBatch]; rfl
      generalize hs : (List.range n).foldl (loopBody lr) (initState xB yB W0 N) = s at ih hx hy
      have hbody : (loopBody lr s n).W = learn s.xBatch s.yBatch s.W lr := rfl
      rw [hbody, hx, hy, ih]
      simp only [iteratedLearn]

lemma trainLoop_losses_getD {m d k : ℕ} (lr : ℝ) (xB : Matrix (Fin m) (Fin d) ℝ)
    (yB : Matrix (Fin m) (Fin k) ℝ) (W0 : Matrix (Fin d) (Fin k) ℝ) (N : ℕ) :
    ∀ n : ℕ, n ≤ N → ∀ i : ℕ,
      (trainLoop lr n (initState xB yB W0 N)).losses.getD i 0 =
        if i < n then evaluate (iteratedLearn xB yB lr (i + 1) W0) xB yB else 0 := by
  intro n
  induction n with
  | zero =>
      intro _ i
      rw [if_neg (Nat.not_lt_zero i)]
      exact getD_replicate_zero N i
  | succ n ih =>
      intro hn i
      unfold trainLoop at ih ⊢
      rw [List.range_succ, List.foldl_append, List.foldl_cons, List.foldl_nil]
      have hW := trainLoop_W lr xB yB W0 N n
      unfold trainLoop at hW
      have hx : ((List.range n).foldl (loopBody lr) (initState xB yB W0 N)).xBatch = xB := by
        rw [foldl_loopBody_xBatch]; rfl
      have hy : ((List.range n).foldl (loopBody lr) (initState xB yB W0 N)).yBatch = yB := by
        rw [foldl_loopBody_yBatch]; rfl
      have hlen : ((List.range n).foldl (loopBody lr) (initState xB yB W0 N)).losses.length = N := by
        rw [foldl_loopBody_losses_length]
        exact List.length_replicate N 0
      generalize hs : (List.range n).foldl (loopBody lr) (initState xB yB W0 N) = s
        at ih hW hx hy hlen
      have hbody : (loopBody lr s n).losses =
          s.losses.set n (evaluate (learn s.xBatch s.yBatch s.W lr) s.xBatch s.yBatch) := rfl
      rw [hbody, hx, hy, hW]
      by_cases hi : i = n
      · subst hi
        rw [getD_set_self _ _ _ (by rw [hlen]; omega), if_pos (Nat.lt_succ_self i)]
        simp only [iteratedLearn]
      · rw [getD_set_ne _ _ _ _ hi, ih (Nat.le_of_succ_le hn) i]
        by_cases hlt : i < n
        · rw [if_pos hlt, if_pos (Nat.lt_succ_of_lt hlt)]
        · rw [if_neg hlt, if_neg (by omega)]

end MnistNotebook

namespace MnistNotebook

/-- Claim C8: the mini-batch is fixed across training.  The loop body only
assigns `W` and `losses`, and `learn`/`evaluate` read but never write their
input arrays, so after the 5000 iterations the batch fields of the state
still equal their initial values, the first 100 training examples
(`x_train[:100, :]` and `y_train[:100, newaxis]`). -/
theorem training_loop_preserves_batch
    (x : Matrix (Fin 60000) (Fin 784) ℝ) (y : Fin 60000 → ℝ)
    (W0 : Matrix (Fin 784) (Fin 1) ℝ) :
    (trainLoop 0.0005 5000 (initState (x_train_batch x) (y_train_batch y) W0 5000)).xBatch
        = x_train_batch x ∧
    (trainLoop 0.0005 5000 (initState (x_train_batch x) (y_train_batch y) W0 5000)).yBatch
        = y_train_batch y :=
  ⟨foldl_loopBody_xBatch 0.0005 (List.range 5000) _,
   foldl_loopBody_yBatch 0.0005 (List.range 5000) _⟩

/-- Claim C9: the training loop performs exactly `num_iters = 5000`
iterations (it is a fold over `range 5000`, hence terminates); `losses` has
exactly 5000 entries, and its `i`-th entry is the mean-squared error of the
weights obtained after `i + 1` `learn` updates on the fixed batch. -/
theorem training_loop_losses_record
    (xB : Matrix (Fin 100) (Fin 784) ℝ) (yB : Matrix (Fin 100) (Fin 1) ℝ)
    (W0 : Matrix (Fin 784) (Fin 1) ℝ) :
    (trainLoop 0.0005 5000 (initState xB yB W0 5000)).losses.length = 5000 ∧
    ∀ i : ℕ, i < 5000 →
      (trainLoop 0.0005 5000 (initState xB yB W0 5000)).losses.getD i 0 =
        evaluate (iteratedLearn xB yB 0.0005 (i + 1) W0) xB yB := by
  constructor
  · show ((List.range 5000).foldl (loopBody 0.0005) (initState xB yB W0 5000)).losses.length = 5000
    rw [foldl_loopBody_losses_length]
    exact List.length_replicate 5000 0
  · intro i hi
    rw [trainLoop_losses_getD 0.0005 xB yB W0 5000 5000 (le_refl 5000) i, if_pos hi]

/-- Witness for C9 at the zero batch and zero initial weights, `i = 0`. -/
theorem training_loop_losses_record_witness :
    0 < 5000 ∧
    (trainLoop 0.0005 5000
        (initState (0 : Matrix (Fin 100) (Fin 784) ℝ)
          (0 : Matrix (Fin 100) (Fin 1) ℝ) (0 : Matrix (Fin 784) (Fin 1) ℝ)
          5000)).losses.getD 0 0 =
      evaluate
        (iteratedLearn (0 : Matrix (Fin 100) (Fin 784) ℝ)
          (0 : Matrix (Fin 100) (Fin 1) ℝ) 0.0005 1
          (0 : Matrix (Fin 784) (Fin 1) ℝ))
        (0 : Matrix (Fin 100) (Fin 784) ℝ) (0 : Matrix (Fin 100) (Fin 1) ℝ) :=
  ⟨by decide, (training_loop_losses_record 0 0 0).2 0 (by decide)⟩

end MnistNotebook

namespace MnistNotebook

/-- The syntactic kind of a top-level Python statement in a notebook cell. -/
inductive StmtKind where
  | importStmt : StmtKind
  | assign : StmtKind
  | augAssign : StmtKind
  | indexAssign : StmtKind
  | defFun : StmtKind
  | exprOnly : StmtKind
deriving DecidableEq

/-- A statement of the notebook, as it appears textually: its kind, the
names it assigns (`targets`; for `defFun` the defined function's name), the
parameter names for `defFun`, and whether it occurs inside a `for` loop
body. -/
structure PyStmt where
  kind : StmtKind
  targets : List String
  params : List String
  inLoop : Bool
deriving DecidableEq

/-- Shorthand for an assignment statement at top level. -/
def mkAssign (ts : List String) : PyStmt := ⟨StmtKind.assign, ts, [], false⟩

/-- Shorthand for an expression statement (call/print/plot) at top level. -/
def mkExpr : PyStmt := ⟨StmtKind.exprOnly, [], [], false⟩

/-- The MNIST notebook's code cells, statement by statement, in order.
Comments give the cell boundaries.  Statements inside `for` bodies carry
`inLoop := true`. -/
def mnistNotebook : List PyStmt := [
  -- cell: imports
  ⟨StmtKind.importStmt, [], [], false⟩,
  ⟨StmtKind.importStmt, [], [], false⟩,
  ⟨StmtKind.importStmt, [], [], false⟩,
  -- cell: (x_train, y_train), (x_test, y_test) = tf.keras.datasets.mnist.load_data()
  mkAssign ["x_train", "y_train", "x_test", "y_test"],
  -- cell: astype(float32) and /= 255.
  mkAssign ["x_train"],
  mkAssign ["x_test"],
  ⟨StmtKind.augAssign, ["x_train"], [], false⟩,
  ⟨StmtKind.augAssign, ["x_test"], [], false⟩,
  mkExpr,
  -- cell: reshape to (n, 784)
  mkAssign ["x_train"],
  mkAssign ["x_test"],
  mkExpr,
  -- cell: y astype(int32) and prints
  mkAssign ["y_train"],
  mkAssign ["y_test"],
  mkExpr, mkExpr, mkExpr, mkExpr,
  -- cell: plot first 10 digits
  mkAssign ["pltsize"],
  mkExpr,
  ⟨StmtKind.exprOnly, [], [], true⟩,
  ⟨StmtKind.exprOnly, [], [], true⟩,
  ⟨StmtKind.exprOnly, [], [], true⟩,
  ⟨StmtKind.exprOnly, [], [], true⟩,
  -- cell: def linear_model(W, input_images)
  ⟨StmtKind.defFun, ["linear_model"], ["W", "input_images"], false⟩,
  -- cell: def evaluate(W, input_images, true_labels)
  ⟨StmtKind.defFun, ["evaluate"], ["W", "input_images", "true_labels"], false⟩,
  -- cell: def learn(input_images, true_labels, current_W, learning_rate)
  ⟨StmtKind.defFun, ["learn"],
    ["input_images", "true_labels", "current_W", "learning_rate"], false⟩,
  -- cell: fixed batch
  mkAssign ["batch_size"],
  mkAssign ["x_train_batch"],
  mkAssign ["y_train_batch"],
  -- cell: initialization and the training loop
  mkAssign ["num_features"],
  mkAssign ["W"],
  mkAssign ["learning_rate"],
  mkAssign ["num_iters"],
  mkAssign ["losses"],
  ⟨StmtKind.assign, ["W"], [], true⟩,
  ⟨StmtKind.indexAssign, ["losses"], [], true⟩,
  mkExpr,
  -- cell: check results so far
  mkAssign ["pltsize"],
  mkExpr,
  mkAssign ["predicted_labels"],
  ⟨StmtKind.exprOnly, [], [], true⟩,
  ⟨StmtKind.exprOnly, [], [], true⟩,
  ⟨StmtKind.exprOnly, [], [], true⟩,
  ⟨StmtKind.exprOnly, [], [], true⟩,
  -- cell: def sigmoid(x) and the first def classification_model(A, b, input_images)
  ⟨StmtKind.defFun, ["sigmoid"], ["x"], false⟩,
  ⟨StmtKind.defFun, ["classification_model"], ["A", "b", "input_images"], false⟩,
  -- cell: sigmoid plot
  mkAssign ["x"],
  mkExpr,
  -- cell: one-hot encoding
  mkAssign ["nb_classes"],
  mkAssign ["y_train_onehot"],
  mkAssign ["y_test_onehot"],
  -- cell: plot one-hot examples
  mkAssign ["pltsize"],
  mkExpr,
  ⟨StmtKind.exprOnly, [], [], true⟩,
  ⟨StmtKind.exprOnly, [], [], true⟩,
  ⟨StmtKind.exprOnly, [], [], true⟩,
  ⟨StmtKind.exprOnly, [], [], true⟩,
  ⟨StmtKind.exprOnly, [], [], true⟩,
  -- cell: def softmax(x)
  ⟨StmtKind.defFun, ["softmax"], ["x"], false⟩,
  -- cell: random W, b and the second def classification_model(W, b, input_images)
  mkAssign ["W"],
  mkAssign ["b"],
  ⟨StmtKind.defFun, ["classification_model"], ["W", "b", "input_images"], false⟩,
  -- cell: apply the softmax model
  mkAssign ["predicted_labels"],
  -- cell: print the probabilities
  mkExpr, mkExpr,
  -- cell: def nonlinear_model(W1, W2, b1, b2, input_images)  (two layers)
  ⟨StmtKind.defFun, ["nonlinear_model"],
    ["W1", "W2", "b1", "b2", "input_images"], false⟩,
  -- cell: def nonlinear_model(A1, A2, A3, b1, b2, b3, input_images)  (three layers)
  ⟨StmtKind.defFun, ["nonlinear_model"],
    ["A1", "A2", "A3", "b1", "b2", "b3", "input_images"], false⟩]

/-- `s` is a statement that assigns (plain, augmented or indexed) the
variable `v`; a `def` does not assign its parameters. -/
def assignsVar (s : PyStmt) (v : String) : Bool :=
  (s.kind == StmtKind.assign || s.kind == StmtKind.augAssign ||
    s.kind == StmtKind.indexAssign) && s.targets.contains v

end MnistNotebook

namespace MnistNotebook

/-- Counterexample to claim C1 as stated: no statement of the MNIST
notebook — in particular no gradient-descent update — assigns any of the
`nonlinear_model` parameters `W1`, `b1`, `W2`, `b2`; the multi-layer
perceptron is never trained. -/
theorem no_statement_updates_mlp_parameters :
    ¬ ∃ s ∈ mnistNotebook,
      (assignsVar s "W1" || assignsVar s "b1" ||
        assignsVar s "W2" || assignsVar s "b2") = true := by
  decide

/-- Claim C1, amended: the notebook trains only the linear model by
gradient descent — its training loop contains an assignment to the linear
model's weights `W` — while `nonlinear_model` (with parameters `W1`, `b1`,
`W2`, `b2`) is merely defined: no statement of the notebook assigns any of
those parameters. -/
theorem only_linear_model_is_trained :
    (∃ s ∈ mnistNotebook, s.inLoop = true ∧ assignsVar s "W" = true) ∧
    (∃ s ∈ mnistNotebook, s.kind = StmtKind.defFun ∧
      s.targets = ["nonlinear_model"] ∧ s.params.contains "W1" = true ∧
      s.params.contains "b1" = true ∧ s.params.contains "W2" = true ∧
      s.params.contains "b2" = true) ∧
    (∀ s ∈ mnistNotebook,
      assignsVar s "W1" = false ∧ assignsVar s "b1" = false ∧
      assignsVar s "W2" = false ∧ assignsVar s "b2" = false) := by
  decide

end MnistNotebook

namespace RealestateNotebook

/-- A row of the Kaggle real-estate table, as used by the first notebook:
the condition rating `OverallCond`, the two columns the notebook keeps
(`SalePrice`, `GrLivArea`), and the values of the remaining columns. -/
structure House where
  overallCond : ℕ
  salePrice : ℤ
  grLivArea : ℤ
  otherCols : List ℤ
deriving DecidableEq

/-- `df2 = df[df['OverallCond'] > 5]`: the rows of the source table whose
condition rating is strictly greater than 5, each carrying its original
pandas index label (`pd.read_csv` gives row `i` the label `i`, and boolean
filtering keeps labels). -/
def df2 (df : List (ℕ × House)) : List (ℕ × House) :=
  df.filter fun p => 5 < p.2.overallCond

/-- `slim_df = df2[['SalePrice','GrLivArea']]`: column selection keeping
only the sale price and living area (and, as always in pandas, the index). -/
def slim_df (df : List (ℕ × House)) : List (ℕ × ℤ × ℤ) :=
  (df2 df).map fun p => (p.1, p.2.salePrice, p.2.grLivArea)

/-- `slim_df.to_csv('slimmed_realestate_data.csv')` with pandas defaults
(`header=True`, `index=True`): a header line whose first field (over the
index column) is empty, then one line per row holding the index label
followed by the two column values. -/
def to_csv (t : List (ℕ × ℤ × ℤ)) : List (List String) :=
  ["", "SalePrice", "GrLivArea"] ::
    t.map fun r => [toString r.1, toString r.2.1, toString r.2.2]

/-- Modelled from the spec: the file claim C3 describes — a two-column
table holding exactly the sale price and living area of the filtered rows,
and nothing else.  Used only to compare the code's `to_csv` output against
the claim. -/
def specTwoColumnFile (df : List (ℕ × House)) : List (List String) :=
  ["SalePrice", "GrLivArea"] ::
    (df2 df).map fun p => [toString p.2.salePrice, toString p.2.grLivArea]

end RealestateNotebook

namespace RealestateNotebook

/-- Counterexample to claim C3 as stated: on a one-row table that passes
the filter, the written file is not the two-column table of the claim —
every data line also carries the pandas row index, so it has three fields. -/
theorem slimmed_csv_not_two_columns :
    to_csv (slim_df [(0, ⟨7, 3, 2, []⟩)]) ≠ specTwoColumnFile [(0, ⟨7, 3, 2, []⟩)] ∧
    ∃ row ∈ to_csv (slim_df [(0, ⟨7, 3, 2, []⟩)]), row.length = 3 := by
  decide

/-- Claim C3, amended: the file written by the first notebook is a
three-column table — pandas' default `to_csv` prepends the row index as an
unnamed first column — whose remaining two columns are exactly the sale
price and living area of the filtered rows, in order, and nothing else. -/
theorem slimmed_csv_is_index_price_area (df : List (ℕ × House)) :
    to_csv (slim_df df) =
      ["", "SalePrice", "GrLivArea"] ::
        (df2 df).map
          (fun p => [toString p.1, toString p.2.salePrice, toString p.2.grLivArea]) := by
  unfold to_csv slim_df
  rw [List.map_map]
  rfl

/-- Claim C4: `df2` contains exactly those rows of the source whose
`OverallCond` is strictly greater than 5 (membership, and even
multiplicity), in the source's order (it is a sublist of the source), and
a row with `OverallCond = 5` is excluded. -/
theorem df2_is_strict_filter (df : List (ℕ × House)) (p : ℕ × House) :
    (df2 df).Sublist df ∧
    (p ∈ df2 df ↔ p ∈ df ∧ 5 < p.2.overallCond) ∧
    ((df2 df).count p = if 5 < p.2.overallCond then df.count p else 0) ∧
    (p.2.overallCond = 5 → p ∉ df2 df) := by
  refine ⟨List.filter_sublist df, ?_, ?_, ?_⟩
  · unfold df2
    rw [List.mem_filter]
    simp
  · unfold df2
    by_cases h5 : 5 < p.2.overallCond
    · rw [if_pos h5]
      exact List.count_filter (by simpa using h5)
    · rw [if_neg h5, List.count_eq_zero]
      intro hmem
      rw [List.mem_filter] at hmem
      simp only [decide_eq_true_eq] at hmem
      exact h5 hmem.2
  · intro h5 hmem
    unfold df2 at hmem
    rw [List.mem_filter] at hmem
    simp only [decide_eq_true_eq] at hmem
    omega

/-- Witness for C4 at a concrete two-row table: the row rated 7 is kept,
the row rated 5 is excluded. -/
theorem df2_filter_witness :
    (df2 [(0, ⟨7, 3, 2, []⟩), (1, ⟨5, 4, 9, []⟩)]).Sublist
        [(0, ⟨7, 3, 2, []⟩), (1, ⟨5, 4, 9, []⟩)] ∧
    ((1, (⟨5, 4, 9, []⟩ : House)) ∈ df2 [(0, ⟨7, 3, 2, []⟩), (1, ⟨5, 4, 9, []⟩)] ↔
      (1, (⟨5, 4, 9, []⟩ : House)) ∈ [(0, ⟨7, 3, 2, []⟩), (1, ⟨5, 4, 9, []⟩)] ∧
        5 < (5 : ℕ)) ∧
    ((df2 [(0, ⟨7, 3, 2, []⟩), (1, ⟨5, 4, 9, []⟩)]).count (1, ⟨5, 4, 9, []⟩) =
      if 5 < (5 : ℕ) then
        ([(0, ⟨7, 3, 2, []⟩), (1, ⟨5, 4, 9, []⟩)] : List (ℕ × House)).count
          (1, ⟨5, 4, 9, []⟩)
      else 0) ∧
    ((5 : ℕ) = 5 →
      (1, (⟨5, 4, 9, []⟩ : House)) ∉ df2 [(0, ⟨7, 3, 2, []⟩), (1, ⟨5, 4, 9, []⟩)]) :=
  df2_is_strict_filter [(0, ⟨7, 3, 2, []⟩), (1, ⟨5, 4, 9, []⟩)] (1, ⟨5, 4, 9, []⟩)

end RealestateNotebook
